import Mathlib

/-!
Verification of the cluster statistics refresh pipeline of
`webapp/calamari/ceph/management/commands/ceph_refresh.py`.

The Python code is shallowly embedded: dictionaries with defaultdict
semantics become association lists (`List (String × Int)`) with a lookup
that defaults to `0`, exceptions become `Except`/`Option Err`, and the
Django model instance (`Cluster`) becomes an explicit record threaded
through the population steps.
-/

set_option autoImplicit false

namespace CephRefresh

/-- Python exception kinds that the embedded code can raise. -/
inductive Err where
  /-- a `requests` transport or HTTP failure -/
  | queryFailure
  /-- JSON body missing an expected key, or not JSON at all -/
  | malformedResponse
  /-- `AttributeError`, e.g. `str` has no attribute `append` -/
  | attributeError
  /-- `IndexError`, e.g. `s[-1]` on an empty string -/
  | indexError
deriving DecidableEq, Repr

/-! ## CounterAggregator: `ModelAdapter._calculate_pool_counters`

`counts = defaultdict(lambda: 0)` is an insertion-ordered mapping whose
lookup yields `0` for absent keys.  We embed it as an association list:
`ddGet` is defaulted lookup, `ddAdd d k v` is `counts[k] += v`
(update in place if present, else append, as Python dicts do), and
`ddSet d k v` is plain assignment `counts[k] = v`. -/

/-- One pool's `stat_sum` mapping: string keys to numeric values. -/
abbrev StatSum := List (String × Int)

/-- The counters dictionary (insertion-ordered, default value `0`). -/
abbrev Counts := List (String × Int)

/-- Defaulted lookup: `counts[k]` on a `defaultdict(lambda: 0)`. -/
def ddGet : Counts → String → Int
  | [], _ => 0
  | (k', v') :: rest, k => if k' = k then v' else ddGet rest k

/-- `counts[k] += v`: update the existing entry, else append `(k, 0 + v)`. -/
def ddAdd : Counts → String → Int → Counts
  | [], k, v => [(k, v)]
  | (k', v') :: rest, k, v =>
      if k' = k then (k', v' + v) :: rest else (k', v') :: ddAdd rest k v

/-- `counts[k] = v`: overwrite the existing entry, else append `(k, v)`. -/
def ddSet : Counts → String → Int → Counts
  | [], k, v => [(k, v)]
  | (k', v') :: rest, k, v =>
      if k' = k then (k', v) :: rest else (k', v') :: ddSet rest k v

/-- The six recognized field names (`fields` in `_calculate_pool_counters`). -/
def fields : List String :=
  ["num_objects_unfound", "num_objects_missing_on_primary",
   "num_deep_scrub_errors", "num_shallow_scrub_errors",
   "num_scrub_errors", "num_objects_degraded"]

/-- The inner loop body: `for key, value in pool.items(): counts[key] += min(value, 1)`. -/
def accumulatePool (d : Counts) (pool : StatSum) : Counts :=
  pool.foldl (fun acc kv => ddAdd acc kv.1 (min kv.2 1)) d

/-- `ModelAdapter._calculate_pool_counters`, applied to the sequence of
`stat_sum` mappings (the code maps `p['stat_sum']` over the pool dump first):
accumulate clamped counts over all pools, delete every key not in `fields`,
then set `counts['total'] = len(pools)`. -/
def calculate_pool_counters (pools : List StatSum) : Counts :=
  let counts := pools.foldl accumulatePool []
  let counts := counts.filter (fun p => decide (p.1 ∈ fields))
  ddSet counts "total" (pools.length : Int)

/-- The spec's per-pool contribution to a field's sum:
`min(value, 1)` if the field is present in the pool's mapping
(first occurrence; mappings have duplicate-free keys), else `0`. -/
def poolContribution (f : String) : StatSum → Int
  | [] => 0
  | (k, v) :: rest => if k = f then min v 1 else poolContribution f rest

/-! ### Lemmas about the dictionary operations -/

theorem ddGet_ddAdd_same (d : Counts) (k : String) (v : Int) :
    ddGet (ddAdd d k v) k = ddGet d k + v := by
  induction d with
  | nil => simp [ddAdd, ddGet]
  | cons p rest ih =>
      obtain ⟨k', v'⟩ := p
      by_cases h : k' = k <;> simp [ddAdd, ddGet, h, ih]

theorem ddGet_ddAdd_ne (d : Counts) (k f : String) (v : Int) (h : k ≠ f) :
    ddGet (ddAdd d k v) f = ddGet d f := by
  induction d with
  | nil => simp [ddAdd, ddGet, h]
  | cons p rest ih =>
      obtain ⟨k', v'⟩ := p
      by_cases h' : k' = k
      · subst h'
        simp [ddAdd, ddGet, h]
      · by_cases h'' : k' = f <;> simp [ddAdd, ddGet, h', h'', ih, Ne.symm h]

theorem ddGet_ddSet_same (d : Counts) (k : String) (v : Int) :
    ddGet (ddSet d k v) k = v := by
  induction d with
  | nil => simp [ddSet, ddGet]
  | cons p rest ih =>
      obtain ⟨k', v'⟩ := p
      by_cases h : k' = k <;> simp [ddSet, ddGet, h, ih]

theorem ddGet_ddSet_ne (d : Counts) (k f : String) (v : Int) (h : k ≠ f) :
    ddGet (ddSet d k v) f = ddGet d f := by
  induction d with
  | nil => simp [ddSet, ddGet, h]
  | cons p rest ih =>
      obtain ⟨k', v'⟩ := p
      by_cases h' : k' = k
      · subst h'
        simp [ddSet, ddGet, h]
      · by_cases h'' : k' = f <;> simp [ddSet, ddGet, h', h'', ih, Ne.symm h]

theorem ddGet_filter_mem (d : Counts) (f : String) (hf : f ∈ fields) :
    ddGet (d.filter (fun p => decide (p.1 ∈ fields))) f = ddGet d f := by
  induction d with
  | nil => simp
  | cons p rest ih =>
      obtain ⟨k, v⟩ := p
      by_cases hk : k = f
      · subst hk
        simp [List.filter, hf, ddGet, ih]
      · by_cases hmem : k ∈ fields <;>
          simp [List.filter, hmem, ddGet, hk, ih]

/-- A fold of `ddAdd`s over entries whose keys all differ from `f`
leaves `ddGet · f` unchanged. -/
theorem ddGet_foldl_entries_ne (pool : StatSum) (f : String)
    (h : ∀ kv ∈ pool, kv.1 ≠ f) (d : Counts) :
    ddGet (pool.foldl (fun acc kv => ddAdd acc kv.1 (min kv.2 1)) d) f = ddGet d f := by
  induction pool generalizing d with
  | nil => rfl
  | cons kv rest ih =>
      simp only [List.foldl_cons]
      rw [ih (fun x hx => h x (List.mem_cons_of_mem _ hx))]
      exact ddGet_ddAdd_ne d kv.1 f _ (h kv (List.mem_cons_self _ _))

/-- One pool with duplicate-free keys contributes exactly
`poolContribution f pool` to `ddGet · f`. -/
theorem ddGet_accumulatePool (pool : StatSum) (f : String)
    (hnd : (pool.map Prod.fst).Nodup) (d : Counts) :
    ddGet (accumulatePool d pool) f = ddGet d f + poolContribution f pool := by
  induction pool generalizing d with
  | nil => simp [accumulatePool, poolContribution, List.lookup]
  | cons kv rest ih =>
      obtain ⟨k, v⟩ := kv
      simp only [List.map_cons, List.nodup_cons] at hnd
      by_cases hk : k = f
      · subst hk
        have hrest : ∀ x ∈ rest, x.1 ≠ k := by
          intro x hx hcontra
          exact hnd.1 (hcontra ▸ List.mem_map_of_mem Prod.fst hx)
        simp only [accumulatePool, List.foldl_cons]
        rw [ddGet_foldl_entries_ne rest k hrest]
        rw [ddGet_ddAdd_same]
        simp [poolContribution]
      · simp only [accumulatePool, List.foldl_cons] at *
        rw [ih hnd.2 (ddAdd d k (min v 1))]
        rw [ddGet_ddAdd_ne d k f _ hk]
        simp [poolContribution, hk]

/-- Accumulating over all pools adds the per-pool contributions. -/
theorem ddGet_foldl_accumulate (pools : List StatSum) (f : String)
    (hnd : ∀ p ∈ pools, (p.map Prod.fst).Nodup) (d : Counts) :
    ddGet (pools.foldl accumulatePool d) f =
      ddGet d f + (pools.map (poolContribution f)).sum := by
  induction pools generalizing d with
  | nil => simp
  | cons p ps ih =>
      simp only [List.foldl_cons, List.map_cons, List.sum_cons]
      rw [ih (fun x hx => hnd x (List.mem_cons_of_mem _ hx)) (accumulatePool d p)]
      rw [ddGet_accumulatePool p f (hnd p (List.mem_cons_self _ _)) d]
      ring

/-- A recognized field name is not the string `"total"`. -/
theorem mem_fields_ne_total (f : String) (hf : f ∈ fields) : f ≠ "total" := by
  simp only [fields, List.mem_cons, List.not_mem_nil, or_false] at hf
  rcases hf with h | h | h | h | h | h <;> subst h <;> decide

/-- Accumulating pools none of whose entries carries key `f`
leaves `ddGet · f` unchanged. -/
theorem ddGet_foldl_accumulate_ne (pools : List StatSum) (f : String)
    (h : ∀ p ∈ pools, ∀ kv ∈ p, kv.1 ≠ f) (d : Counts) :
    ddGet (pools.foldl accumulatePool d) f = ddGet d f := by
  induction pools generalizing d with
  | nil => rfl
  | cons p ps ih =>
      simp only [List.foldl_cons]
      rw [ih (fun x hx => h x (List.mem_cons_of_mem _ hx))]
      exact ddGet_foldl_entries_ne p f (h p (List.mem_cons_self _ _)) d

/-- Keys of `ddSet d k v` come from `d` or are `k`. -/
theorem mem_keys_ddSet (d : Counts) (k : String) (v : Int) (x : String)
    (hx : x ∈ (ddSet d k v).map Prod.fst) : x ∈ d.map Prod.fst ∨ x = k := by
  induction d with
  | nil =>
      simp only [ddSet, List.map_cons, List.map_nil, List.mem_singleton] at hx
      exact Or.inr hx
  | cons p rest ih =>
      obtain ⟨k', v'⟩ := p
      by_cases h : k' = k
      · rw [show ddSet ((k', v') :: rest) k v = (k', v) :: rest from by
          simp [ddSet, h]] at hx
        simp only [List.map_cons, List.mem_cons] at hx ⊢
        rcases hx with h1 | h1
        · exact Or.inr (h1.trans h)
        · exact Or.inl (Or.inr h1)
      · rw [show ddSet ((k', v') :: rest) k v = (k', v') :: ddSet rest k v from by
          simp [ddSet, h]] at hx
        simp only [List.map_cons, List.mem_cons] at hx ⊢
        rcases hx with h1 | h1
        · exact Or.inl (Or.inl h1)
        · rcases ih h1 with h2 | h2
          · exact Or.inl (Or.inr h2)
          · exact Or.inr h2

/-! ### Claim theorems about the CounterAggregator -/

/-- **C3.** For every sequence of per-pool statistic mappings (duplicate-free
keys, as Python dicts guarantee) and each recognized field name, the
aggregated counter equals the sum over all pools of `min(value, 1)` when the
field is present in the pool's mapping and `0` when it is absent; and a pool
whose recognized field has a value greater than 1 contributes exactly 1. -/
theorem aggregate_clamped_indicator_sum (pools : List StatSum) (f : String)
    (hnd : ∀ p ∈ pools, (p.map Prod.fst).Nodup) (hf : f ∈ fields) :
    ddGet (calculate_pool_counters pools) f =
        (pools.map (poolContribution f)).sum ∧
      ∀ (tail : StatSum) (v : Int), 1 < v →
        poolContribution f ((f, v) :: tail) = 1 := by
  constructor
  · simp only [calculate_pool_counters]
    rw [ddGet_ddSet_ne _ _ _ _ (Ne.symm (mem_fields_ne_total f hf))]
    rw [ddGet_filter_mem _ _ hf]
    rw [ddGet_foldl_accumulate pools f hnd []]
    simp [ddGet]
  · intro tail v hv
    simp only [poolContribution, if_pos rfl]
    exact min_eq_right (le_of_lt hv)

/-- Witness for C3 at the spec's own example input. -/
theorem aggregate_clamped_indicator_sum_witness :
    ddGet (calculate_pool_counters
        [[("num_objects_degraded", (3 : Int))], [("num_objects_degraded", 0)],
         [("other", 5)]]) "num_objects_degraded" =
      ([[("num_objects_degraded", (3 : Int))], [("num_objects_degraded", 0)],
        [("other", 5)]].map (poolContribution "num_objects_degraded")).sum :=
  (aggregate_clamped_indicator_sum
    [[("num_objects_degraded", (3 : Int))], [("num_objects_degraded", 0)],
     [("other", 5)]] "num_objects_degraded" (by decide) (by decide)).1

/-- **C6.** For every sequence of per-pool statistic mappings, the `total`
counter equals the number of pools (in particular, `0` for the empty
sequence). -/
theorem aggregate_total_eq_length (pools : List StatSum) :
    ddGet (calculate_pool_counters pools) "total" = (pools.length : Int) := by
  simp only [calculate_pool_counters]
  exact ddGet_ddSet_same _ _ _

/-- **C7.** The returned counter mapping has no key outside the six
recognized field names plus `"total"`; and if no pool mentions any
recognized field, all six named counters are `0`. -/
theorem aggregate_keys_and_unrecognized (pools : List StatSum) :
    (∀ k ∈ (calculate_pool_counters pools).map Prod.fst,
        k ∈ fields ∨ k = "total") ∧
      ((∀ p ∈ pools, ∀ kv ∈ p, kv.1 ∉ fields) →
        ∀ f ∈ fields, ddGet (calculate_pool_counters pools) f = 0) := by
  constructor
  · intro k hk
    simp only [calculate_pool_counters] at hk
    rcases mem_keys_ddSet _ _ _ k hk with h | h
    · rcases List.mem_map.mp h with ⟨p, hp, hpk⟩
      have := (List.mem_filter.mp hp).2
      exact Or.inl (hpk ▸ of_decide_eq_true this)
    · exact Or.inr h
  · intro hnone f hf
    simp only [calculate_pool_counters]
    rw [ddGet_ddSet_ne _ _ _ _ (Ne.symm (mem_fields_ne_total f hf))]
    rw [ddGet_filter_mem _ _ hf]
    rw [ddGet_foldl_accumulate_ne pools f
      (fun p hp kv hkv hcontra => hnone p hp kv hkv (hcontra ▸ hf)) []]
    rfl

/-- Witness for C7's conditional part at a pool list with only an
unrecognized field. -/
theorem aggregate_keys_and_unrecognized_witness :
    ddGet (calculate_pool_counters [[("other", (5 : Int))]])
      "num_scrub_errors" = 0 :=
  (aggregate_keys_and_unrecognized [[("other", (5 : Int))]]).2
    (by decide) "num_scrub_errors" (by decide)

/-! ## SnapshotBuilder: `ModelAdapter`

The Django model instance mutated by the `_populate_*` methods becomes an
explicit `Cluster` record; each `_populate_*` method becomes a function
`Client → Cluster → Except Err Cluster` that raises iff its query (or key
access) raises, and otherwise overwrites exactly one field. -/

/-- The `stats` sub-object of the `df` endpoint's `output` (kilobytes). -/
structure SpaceStats where
  total_used : Int
  total_space : Int
  total_avail : Int
deriving DecidableEq, Repr

/-- Payload of the `health?detail` endpoint's `output`; `detail` and
`summary` are copied verbatim, so they stay opaque strings here. -/
structure HealthData where
  overall_status : String
  detail : String
  summary : String
deriving DecidableEq, Repr

/-- What the `CephRestClient` typed getters deliver for one cluster.
Each getter either returns the decoded payload or raises
(`QueryFailure` / missing key); OSD entries are opaque. -/
structure Client where
  space_stats : Except Err SpaceStats
  health : Except Err HealthData
  osds : Except Err (List String)
  pg_pools : Except Err (List StatSum)

/-- `cluster.space` after `_populate_space` (bytes). -/
structure SpaceField where
  used_bytes : Int
  capacity_bytes : Int
  free_bytes : Int
deriving DecidableEq, Repr

/-- The mutable fields of the `Cluster` model instance that the
`_populate_*` methods write.  `counters` holds the `'pool'` mapping of
`cluster.counters = {'pool': ...}`. -/
structure Cluster where
  space : Option SpaceField
  health : Option HealthData
  osds : Option (List String)
  counters : Option Counts
deriving DecidableEq, Repr

/-- `ModelAdapter._populate_space`: read `df` stats, convert KB to bytes. -/
def populate_space (client : Client) (c : Cluster) : Except Err Cluster :=
  match client.space_stats with
  | .error e => .error e
  | .ok data =>
      .ok { c with
            space := some ⟨data.total_used * 1024, data.total_space * 1024,
                           data.total_avail * 1024⟩ }

/-- `ModelAdapter._populate_health`: copy the three health fields verbatim. -/
def populate_health (client : Client) (c : Cluster) : Except Err Cluster :=
  match client.health with
  | .error e => .error e
  | .ok data => .ok { c with health := some data }

/-- `ModelAdapter._populate_osds`: copy the `osds` list verbatim. -/
def populate_osds (client : Client) (c : Cluster) : Except Err Cluster :=
  match client.osds with
  | .error e => .error e
  | .ok data => .ok { c with osds := some data }

/-- `ModelAdapter._populate_counters`: aggregate the pg-pool dump. -/
def populate_counters (client : Client) (c : Cluster) : Except Err Cluster :=
  match client.pg_pools with
  | .error e => .error e
  | .ok pools => .ok { c with counters := some (calculate_pool_counters pools) }

/-- Python's `str.startswith`. -/
def startswith (s pre : String) : Bool := pre.toList.isPrefixOf s.toList

/-- `dir(self)` on a `ModelAdapter` instance: attribute names in sorted
order.  The inherited `object` dunder attributes (`__class__`, `__init__`,
…) all sort before `_calculate_pool_counters` (`'_'` < any letter) and none
starts with `_populate_`, so they are elided. -/
def modelAdapterDir : List String :=
  ["_calculate_pool_counters", "_populate_counters", "_populate_health",
   "_populate_osds", "_populate_space", "client", "cluster", "refresh"]

/-- `attrs = filter(lambda a: a.startswith('_populate_'), dir(self))`
in `ModelAdapter.refresh`. -/
def refreshAttrNames : List String :=
  modelAdapterDir.filter (fun a => startswith a "_populate_")

/-- The population steps `ModelAdapter.refresh` runs, with the method each
name dispatches to (`getattr(self, attr)()`), in `dir()` order — `dir()`
sorts, so the order is alphabetical. -/
def refreshSteps : List (String × (Client → Cluster → Except Err Cluster)) :=
  [("_populate_counters", populate_counters),
   ("_populate_health", populate_health),
   ("_populate_osds", populate_osds),
   ("_populate_space", populate_space)]

/-- `refreshSteps` carries exactly the attribute names computed by the
source's `filter`/`dir` combination, in the same order. -/
theorem refreshSteps_names : refreshSteps.map Prod.fst = refreshAttrNames := by
  decide

/-- Outcome of running a list of population steps: names of the steps that
started (the failed one included), the in-memory cluster afterwards, and the
exception if one was raised. -/
structure StepsResult where
  trace : List String
  cluster : Cluster
  err : Option Err
deriving DecidableEq, Repr

/-- Run population steps in order, stopping at the first exception; the
exception escapes before the failing step's field assignment, so the
cluster keeps the mutations of the earlier steps only. -/
def runSteps : List (String × (Client → Cluster → Except Err Cluster)) →
    Client → Cluster → StepsResult
  | [], _, c => ⟨[], c, none⟩
  | (name, step) :: rest, client, c =>
      match step client c with
      | .error e => ⟨[name], c, some e⟩
      | .ok c' =>
          let r := runSteps rest client c'
          ⟨name :: r.trace, r.cluster, r.err⟩

/-- Outcome of `ModelAdapter.refresh` plus the persisted row:
`saved` is the `Cluster` row as stored in the database (`cluster.save()`
overwrites it; it starts as `saved0`). -/
structure RefreshResult where
  trace : List String
  cluster : Cluster
  saved : Option Cluster
  err : Option Err
deriving DecidableEq, Repr

/-- `ModelAdapter.refresh`: run every `_populate_*` step, then
`self.cluster.save()`.  An exception in a step propagates, so `save()` is
not reached and the persisted row stays `saved0`. -/
def refresh (client : Client) (c : Cluster) (saved0 : Option Cluster) :
    RefreshResult :=
  let r := runSteps refreshSteps client c
  match r.err with
  | some e => ⟨r.trace, r.cluster, saved0, some e⟩
  | none => ⟨r.trace, r.cluster, some r.cluster, none⟩

/-- A client whose five queries all succeed, with minimal payloads. -/
def clientOK : Client :=
  { space_stats := .ok ⟨1, 2, 3⟩,
    health := .ok ⟨"HEALTH_OK", "", ""⟩,
    osds := .ok [],
    pg_pools := .ok [] }

/-- A client whose `health?detail` query raises and whose other queries
succeed. -/
def clientHealthErr : Client :=
  { clientOK with health := .error .queryFailure }

/-- A fresh, unpopulated cluster record. -/
def cluster0 : Cluster := ⟨none, none, none, none⟩

/-! ### Claim theorems about the SnapshotBuilder -/

/-- **C2 (counterexample).** On a cluster whose queries all succeed, the
population steps run counters, health, osds, space — not space, health,
osds, counters as claimed. -/
theorem refresh_order_counterexample :
    (refresh clientOK cluster0 none).trace =
        ["_populate_counters", "_populate_health", "_populate_osds",
         "_populate_space"] ∧
      ¬ (refresh clientOK cluster0 none).trace =
          ["_populate_space", "_populate_health", "_populate_osds",
           "_populate_counters"] := by
  constructor <;> decide

/-- **C2 (amended).** For every cluster, the snapshot build executes its
four population steps in alphabetical order of their method names —
counters, health, osds, space — because `dir()` returns sorted names. -/
theorem refresh_steps_alphabetical_order (client : Client) (c : Cluster)
    (saved0 : Option Cluster) (h : (refresh client c saved0).err = none) :
    (refresh client c saved0).trace =
      ["_populate_counters", "_populate_health", "_populate_osds",
       "_populate_space"] := by
  obtain ⟨ss, hh, oo, pp⟩ := client
  cases pp <;> cases hh <;> cases oo <;> cases ss <;>
    simp_all [refresh, refreshSteps, runSteps, populate_counters,
      populate_health, populate_osds, populate_space]

/-- Witness for the amended C2 at a concrete healthy cluster. -/
theorem refresh_steps_alphabetical_order_witness :
    (refresh clientOK cluster0 none).trace =
      ["_populate_counters", "_populate_health", "_populate_osds",
       "_populate_space"] :=
  refresh_steps_alphabetical_order clientOK cluster0 none (by decide)

/-- **C4.** For every space-stats input `{total_used: U, total_space: C,
total_avail: A}`, a successful build leaves the snapshot's space fields at
exactly `(U*1024, C*1024, A*1024)`. -/
theorem refresh_space_unit_conversion (client : Client) (c : Cluster)
    (saved0 : Option Cluster) (u cap a : Int)
    (hs : client.space_stats = .ok ⟨u, cap, a⟩)
    (h : (refresh client c saved0).err = none) :
    (refresh client c saved0).cluster.space =
      some ⟨u * 1024, cap * 1024, a * 1024⟩ := by
  obtain ⟨ss, hh, oo, pp⟩ := client
  cases pp <;> cases hh <;> cases oo <;> cases ss <;>
    simp_all [refresh, refreshSteps, runSteps, populate_counters,
      populate_health, populate_osds, populate_space]

/-- Witness for C4 at `U = 1`, `C = 2`, `A = 3`. -/
theorem refresh_space_unit_conversion_witness :
    (refresh clientOK cluster0 none).cluster.space =
      some ⟨1 * 1024, 2 * 1024, 3 * 1024⟩ :=
  refresh_space_unit_conversion clientOK cluster0 none 1 2 3 rfl (by decide)

/-- **C5.** If any population step raises, `cluster.save()` is not reached:
the persisted row is exactly what it was before the cycle. -/
theorem refresh_failure_skips_save (client : Client) (c : Cluster)
    (saved0 : Option Cluster) (e : Err)
    (h : (refresh client c saved0).err = some e) :
    (refresh client c saved0).saved = saved0 := by
  cases hr : (runSteps refreshSteps client c).err <;>
    simp [refresh, hr] at h ⊢

/-- Witness for C5: a failing health query leaves the persisted row
unchanged. -/
theorem refresh_failure_skips_save_witness :
    (refresh clientHealthErr cluster0 (some cluster0)).saved =
      some cluster0 :=
  refresh_failure_skips_save clientHealthErr cluster0 (some cluster0)
    Err.queryFailure (by decide)

/-- A client whose `osd/dump` query raises and whose other queries
succeed. -/
def clientOsdsErr : Client :=
  { clientOK with osds := .error .queryFailure }

/-- A client whose `df` query raises and whose other queries succeed. -/
def clientSpaceErr : Client :=
  { clientOK with space_stats := .error .queryFailure }

/-- **C10.** Whichever population step raises — one conjunct per failing
step, exhausting the four steps in their actual counters → health → osds →
space order — every field written by the steps that ran before it remains
mutated on the in-memory cluster object, the failing and later steps'
fields are untouched, and `cluster.save()` is skipped: only the persisted
state is protected, not the borrowed in-memory `Cluster`. -/
theorem refresh_retains_prior_mutations_on_failure (client : Client)
    (c : Cluster) (saved0 : Option Cluster) :
    (∀ e, client.pg_pools = .error e →
      (refresh client c saved0).cluster = c ∧
        (refresh client c saved0).saved = saved0 ∧
        (refresh client c saved0).err = some e) ∧
      (∀ pools e, client.pg_pools = .ok pools →
          client.health = .error e →
        (refresh client c saved0).cluster =
            { c with counters := some (calculate_pool_counters pools) } ∧
          (refresh client c saved0).saved = saved0 ∧
          (refresh client c saved0).err = some e) ∧
      (∀ pools hd e, client.pg_pools = .ok pools →
          client.health = .ok hd → client.osds = .error e →
        (refresh client c saved0).cluster =
            { c with counters := some (calculate_pool_counters pools),
                     health := some hd } ∧
          (refresh client c saved0).saved = saved0 ∧
          (refresh client c saved0).err = some e) ∧
      (∀ pools hd os e, client.pg_pools = .ok pools →
          client.health = .ok hd → client.osds = .ok os →
          client.space_stats = .error e →
        (refresh client c saved0).cluster =
            { c with counters := some (calculate_pool_counters pools),
                     health := some hd, osds := some os } ∧
          (refresh client c saved0).saved = saved0 ∧
          (refresh client c saved0).err = some e) := by
  obtain ⟨ss, hlt, oo, pp⟩ := client
  refine ⟨?_, ?_, ?_, ?_⟩
  · intro e hp
    simp_all [refresh, refreshSteps, runSteps, populate_counters,
      populate_health, populate_osds, populate_space]
  · intro pools e hp hhe
    simp_all [refresh, refreshSteps, runSteps, populate_counters,
      populate_health, populate_osds, populate_space]
  · intro pools hd e hp hhe hoe
    simp_all [refresh, refreshSteps, runSteps, populate_counters,
      populate_health, populate_osds, populate_space]
  · intro pools hd os e hp hhe hoe hse
    simp_all [refresh, refreshSteps, runSteps, populate_counters,
      populate_health, populate_osds, populate_space]

/-- Witness for C10 exercising two of the failing-step cases: a failing
osds step retains the counters and health writes, and a failing space step
(the last step) retains the counters, health and osds writes; in both
cases nothing is persisted. -/
theorem refresh_retains_prior_mutations_on_failure_witness :
    ((refresh clientOsdsErr cluster0 none).cluster =
        { cluster0 with counters := some (calculate_pool_counters []),
                        health := some ⟨"HEALTH_OK", "", ""⟩ }) ∧
      ((refresh clientSpaceErr cluster0 none).cluster =
        { cluster0 with counters := some (calculate_pool_counters []),
                        health := some ⟨"HEALTH_OK", "", ""⟩,
                        osds := some [] }) :=
  ⟨((refresh_retains_prior_mutations_on_failure clientOsdsErr cluster0
        none).2.2.1 [] ⟨"HEALTH_OK", "", ""⟩ Err.queryFailure
      rfl rfl rfl).1,
   ((refresh_retains_prior_mutations_on_failure clientSpaceErr cluster0
        none).2.2.2 [] ⟨"HEALTH_OK", "", ""⟩ [] Err.queryFailure
      rfl rfl rfl rfl).1⟩

/-! ## RestClient and status-query URL construction -/

/-- `CephRestClient.__init__` plus `_query`: the URL a data-endpoint GET is
issued against.  `__init__` evaluates `self.__url[-1]` (IndexError on an
empty URL) and appends `'/'` when the last character is not `'/'`;
`_query` then concatenates the endpoint path. -/
def cephRestClientRequestUrl (base endpoint : String) : Except Err String :=
  match base.toList.getLast? with
  | none => .error .indexError
  | some ch =>
      if ch = '/' then .ok (base ++ endpoint)
      else .ok (base ++ "/" ++ endpoint)

/-- `Command._cluster_query`: the URL (if any) the status GET is issued
against.  The source evaluates `url_base[-1]` (IndexError on empty) and,
when the URL does not end in `'/'`, runs `url_base.append('/')` — but a
Python `str` has no `append` method, so that branch raises AttributeError
before any request is made. -/
def clusterQueryRequestUrl (base endpoint : String) : Except Err String :=
  match base.toList.getLast? with
  | none => .error .indexError
  | some ch =>
      if ch = '/' then .ok (base ++ endpoint)
      else .error .attributeError

/-- **C8.** On the spec's example base URL (no trailing slash), the four
data endpoints are requested at `base + '/' + endpoint` as claimed, but the
fifth (status) endpoint is never requested: `_cluster_query` raises
AttributeError on `url_base.append('/')`. -/
theorem status_url_append_bug :
    cephRestClientRequestUrl "http://host:1234" "df" =
        .ok "http://host:1234/df" ∧
      clusterQueryRequestUrl "http://host:1234" "status" =
        .error Err.attributeError := by
  constructor <;> rfl

/-! ## RefreshOrchestrator: `Command.handle` -/

/-- The parts of a `requests` response object that `_print_response` shows
in a failure diagnostic. -/
structure HttpResponse where
  status_code : Int
  headers : String
  text : String
deriving DecidableEq, Repr

/-- Behavior of the status-endpoint `requests.get` for one cluster: either
the transport raises (no response object exists), or a response `r`
arrives and decoding it (`r.json()` and the later `['output']` access)
yields the report or raises. -/
inductive StatusBehavior where
  | transportError (e : Err)
  | response (r : HttpResponse) (body : Except Err String)

/-- Everything that determines one cluster's processing in a cycle: its
model row, its data-endpoint responses and its status-endpoint behavior. -/
structure ClusterEnv where
  name : String
  api_base_url : String
  data : Cluster
  client : Client
  status : StatusBehavior

/-- `CephRestClient(cluster.api_base_url)`: the constructor evaluates
`url[-1]`, raising IndexError when the URL is empty. -/
def restClientInit (base : String) : Except Err Unit :=
  match base.toList.getLast? with
  | none => .error .indexError
  | some _ => .ok ()

/-- `Command._cluster_query` on the `status` endpoint: build the URL (its
IndexError / AttributeError propagate before any request), perform the GET,
store the response in `self._last_response` as soon as one arrives, then
decode the body.  Returns the decoded report or the exception, and the new
`_last_response`. -/
def statusQuery (env : ClusterEnv) (lastResp : Option HttpResponse) :
    Except Err String × Option HttpResponse :=
  match clusterQueryRequestUrl env.api_base_url "status" with
  | .error e => (.error e, lastResp)
  | .ok _ =>
      match env.status with
      | .transportError e => (.error e, lastResp)
      | .response r body => (body, some r)

/-- Observable outcome of `Command.handle` on a list of clusters. -/
structure CycleResult where
  /-- clusters whose `refresh()` reached `cluster.save()` -/
  snapshotSaved : List String
  /-- clusters whose `ClusterStatus` row was saved -/
  statusSaved : List String
  /-- caught status failures: cluster name and the `_last_response` its
  diagnostic shows -/
  failures : List (String × Option HttpResponse)
  /-- `"Update completed!"` was printed -/
  completed : Bool
  /-- exception escaping `handle`, aborting the rest of the cycle -/
  uncaught : Option Err
deriving DecidableEq, Repr

/-- `Command.handle`: for each cluster in order, construct the rest client
(IndexError possible on an empty base URL), run `adapter.refresh()`
*outside* any try/except — an exception here escapes `handle` and aborts
the whole cycle — then try `_refresh_cluster_status`, catching any
exception and logging a diagnostic that shows `self._last_response`.
`_last_response` is initialized once in `__init__` and never reset between
clusters. -/
def runCycle : List ClusterEnv → Option HttpResponse → CycleResult
  | [], _ => ⟨[], [], [], true, none⟩
  | env :: rest, lastResp =>
      match restClientInit env.api_base_url with
      | .error e => ⟨[], [], [], false, some e⟩
      | .ok _ =>
          match (refresh env.client env.data none).err with
          | some e => ⟨[], [], [], false, some e⟩
          | none =>
              match statusQuery env lastResp with
              | (.ok _, lastResp') =>
                  let r := runCycle rest lastResp'
                  ⟨env.name :: r.snapshotSaved, env.name :: r.statusSaved,
                   r.failures, r.completed, r.uncaught⟩
              | (.error _, lastResp') =>
                  let r := runCycle rest lastResp'
                  ⟨env.name :: r.snapshotSaved, r.statusSaved,
                   (env.name, lastResp') :: r.failures, r.completed,
                   r.uncaught⟩

/-- The status response object of the healthy example cluster. -/
def responseGood : HttpResponse := ⟨200, "", "ok"⟩

/-- A healthy cluster: every query succeeds. -/
def envGood : ClusterEnv :=
  { name := "good", api_base_url := "http://good:5000/",
    data := cluster0, client := clientOK,
    status := .response responseGood (.ok "report") }

/-- A cluster whose `df` query raises during snapshot building. -/
def envBadRefresh : ClusterEnv :=
  { name := "bad", api_base_url := "http://bad:5000/",
    data := cluster0,
    client := { clientOK with space_stats := .error .queryFailure },
    status := .response responseGood (.ok "report") }

/-- A cluster whose snapshot build succeeds but whose status GET raises a
transport error before any response object exists. -/
def envStatusDown : ClusterEnv :=
  { name := "down", api_base_url := "http://down:5000/",
    data := cluster0, client := clientOK,
    status := .transportError .queryFailure }

/-! ### Claim theorems about the RefreshOrchestrator -/

/-- **C1.** Evaluating the cycle at `[bad, good]`, where only `bad`'s
snapshot build raises: the exception escapes `handle` (it is raised outside
the try/except), `good` is never attempted, no cluster is marked failed,
and the cycle never completes — the claimed per-cluster isolation holds
only for status-query failures, not for snapshot-build failures. -/
theorem cycle_aborts_on_refresh_failure :
    runCycle [envBadRefresh, envGood] none =
      ⟨[], [], [], false, some Err.queryFailure⟩ := by decide

/-- **C9 (counterexample).** Cluster `good` is processed first and its
status GET succeeds with response `responseGood`; cluster `down` is
processed next and its status GET raises before a response arrives.  The
failure diagnostic for `down` shows `responseGood` — a response captured
while processing the earlier cluster — so the reference is not reset per
cluster. -/
theorem stale_diagnostic_counterexample :
    (runCycle [envGood, envStatusDown] none).failures =
      [("down", some responseGood)] := by decide

/-- **C9 (amended).** `_last_response` is not reset per cluster: it is
overwritten exactly when a status GET returns a response object, so when
one cluster's status GET succeeds with response `r₁` and the next
cluster's status GET raises before a response arrives, the next cluster's
failure diagnostic shows `r₁`, the earlier cluster's response. -/
theorem stale_diagnostic_from_earlier_cluster (env1 env2 : ClusterEnv)
    (rest : List ClusterEnv) (lastResp : Option HttpResponse)
    (r1 : HttpResponse) (out1 : String) (e : Err)
    (h1url : env1.api_base_url.toList.getLast? = some '/')
    (h1status : env1.status = .response r1 (.ok out1))
    (h1refresh : (refresh env1.client env1.data none).err = none)
    (h2url : env2.api_base_url.toList.getLast? = some '/')
    (h2refresh : (refresh env2.client env2.data none).err = none)
    (h2status : env2.status = .transportError e) :
    (env2.name, some r1) ∈
      (runCycle (env1 :: env2 :: rest) lastResp).failures := by
  have h1url' : env1.api_base_url.data.getLast? = some '/' := h1url
  have h2url' : env2.api_base_url.data.getLast? = some '/' := h2url
  simp [runCycle, restClientInit, statusQuery, clusterQueryRequestUrl,
    h1url', h1status, h1refresh, h2url', h2refresh, h2status]

/-- Witness for the amended C9 at the concrete two-cluster run. -/
theorem stale_diagnostic_from_earlier_cluster_witness :
    ("down", some responseGood) ∈
      (runCycle [envGood, envStatusDown] none).failures :=
  stale_diagnostic_from_earlier_cluster envGood envStatusDown [] none
    responseGood "report" Err.queryFailure rfl rfl (by decide) rfl
    (by decide) rfl

end CephRefresh
